import Mathlib

/-!
Shallow embedding of the unioauth library (OAuth 2.0 authorization-code flow
over GitHub / Google / Discord) and proofs about its specification claims.

Modelling conventions, used uniformly below:
- A JavaScript value that is either a string or null/undefined is `Option String`
  (`none` = null/undefined).  JS truthiness for such values is `truthy`:
  null, undefined and the empty string are falsy, every other string is truthy.
  Source checks of the form `if (x)` on such values become `if truthy x`.
- A JS array-or-undefined value is `Option (List _)`; note that in JS an empty
  array is truthy, so `a || b` on arrays falls back only when `a` is undefined.
- Network I/O is modelled by an oracle value (`FetchOutcome`) describing what
  the single `fetch` inside the `request` helper of http.js would produce:
  either a transport failure or a response with an HTTP status and an already
  parsed body.  The body-parsing branches of http.js (JSON vs form-encoded)
  always yield a parsed mapping, so their result is the oracle datum itself.
- Functions that can throw return `Except OAuthError _`.  Functions that
  perform network calls additionally return the list of request URLs issued,
  in order, so that before/after-network ordering claims are statable.
- `Buffer.from(s)` in state.js is the UTF-8 encoding of `s`; since UTF-8
  encoding is injective, the buffer is modelled by the codepoint sequence of
  `s`, which has the same equality (and hence the same mismatch behaviour).
-/

namespace UniOAuth

/-- JS string-or-null-or-undefined value. -/
abbrev JStr := Option String

/-- JS truthiness of a string-valued expression: null/undefined and the empty
string are falsy. -/
def truthy : JStr → Bool
  | none => false
  | some s => !s.isEmpty

/-- JS `a || b` on string-valued expressions. -/
def jsOr (a b : JStr) : JStr := if truthy a then a else b

/-! errors.js: the OAuthError class. -/

/-- The OAuthError value: message, provider attribution (nullable) and a
machine-readable code. -/
structure OAuthError where
  message : String
  provider : JStr
  code : String
deriving Repr, DecidableEq, Inhabited

/-- The OAuthError constructor: `this.provider = provider || null` and
`this.code = code || "OAUTH_ERROR"`. -/
def mkOAuthError (message : String) (provider : JStr) (code : String) : OAuthError :=
  { message := message
    provider := if truthy provider then provider else none
    code := if code.isEmpty then "OAUTH_ERROR" else code }

/-! state.js: generateState / validateState. -/

/-- Model of `Buffer.from(String(s))`: the codepoint sequence of `s`
(observationally equivalent to the UTF-8 byte sequence, see header note). -/
def bufBytes (s : String) : List Nat := s.data.map Char.toNat

/-- Model of `crypto.timingSafeEqual` on two equal-length buffers: the
constant-time algorithm ORs together the XOR of every byte pair — it inspects
the full length and never short-circuits — and succeeds iff the accumulator
is zero. -/
def timingSafeEqual (a b : List Nat) : Bool :=
  decide ((List.zipWith (fun x y => x ^^^ y) a b).foldl (fun acc v => acc ||| v) 0 = 0)

/-- validateState from state.js: missing (falsy) argument gives STATE_MISSING;
then a length or timing-safe-content mismatch gives STATE_MISMATCH. -/
def validateState (expected received : JStr) : Except OAuthError Unit :=
  if !truthy expected || !truthy received then
    .error (mkOAuthError "State parameter missing - potential CSRF attack"
      none "STATE_MISSING")
  else
    let expectedBuf := bufBytes (expected.getD "")
    let receivedBuf := bufBytes (received.getD "")
    if expectedBuf.length ≠ receivedBuf.length ||
        !timingSafeEqual expectedBuf receivedBuf then
      .error (mkOAuthError "State mismatch - potential CSRF attack"
        none "STATE_MISMATCH")
    else
      .ok ()

/-! http.js: the request helper. -/

/-- What the environment does to one fetch: a transport failure (fetch threw)
or a response with an HTTP status and a parsed body of type α. -/
inductive FetchOutcome (α : Type) where
  | netFail (msg : String)
  | response (status : Nat) (data : α)
deriving Repr, DecidableEq

/-- whatwg fetch `response.ok`: status in the 2xx range. -/
def statusOk (status : Nat) : Bool := 200 ≤ status && status < 300

/-- Accessors for the error-message fields http.js reads off an arbitrary
parsed body (`data.error_description`, `data.message`, `data.error`); a body
type lacking a field models the access as undefined (`none`). -/
structure ErrView (α : Type) where
  error_description : α → JStr
  message : α → JStr
  error : α → JStr

/-- The non-2xx message of http.js:
`data.error_description || data.message || data.error || "HTTP status"`. -/
def httpErrorMessage {α : Type} (v : ErrView α) (data : α) (status : Nat) : String :=
  if truthy (v.error_description data) then (v.error_description data).getD ""
  else if truthy (v.message data) then (v.message data).getD ""
  else if truthy (v.error data) then (v.error data).getD ""
  else "HTTP " ++ toString status

/-- request from http.js: a thrown fetch becomes NETWORK_ERROR (provider null),
a non-2xx status becomes HTTP_ERROR (provider null), otherwise the parsed body
is returned. -/
def request {α : Type} (url : String) (v : ErrView α) (outcome : FetchOutcome α) :
    Except OAuthError α :=
  match outcome with
  | .netFail msg =>
    .error (mkOAuthError ("Network request to " ++ url ++ " failed: " ++ msg)
      none "NETWORK_ERROR")
  | .response status data =>
    if statusOk status then .ok data
    else .error (mkOAuthError (httpErrorMessage v data status) none "HTTP_ERROR")

/-! base.js: the OAuthProvider base class. -/

/-- The subclass-supplied data of a provider variant: name, endpoint URLs and
default scopes (the getters of base.js overridden by each provider file). -/
structure ProviderSpec where
  name : String
  authorizationUrl : String
  tokenUrl : String
  defaultScopes : List String
deriving Repr, DecidableEq

/-- The configuration object passed to the constructor.  String fields are
JS string values; `scopes` is an array or undefined (an empty array is a
present, truthy value). -/
structure ProviderConfig where
  clientId : JStr := none
  clientSecret : JStr := none
  redirectUri : JStr := none
  scopes : Option (List String) := none
deriving Repr, DecidableEq

/-- A constructed provider instance: validated config plus the resolved scope
list (`config.scopes || this.defaultScopes`; an array is always truthy). -/
structure Instance where
  spec : ProviderSpec
  clientId : String
  clientSecret : String
  redirectUri : String
  scopes : List String
deriving Repr, DecidableEq

/-- The OAuthProvider constructor: each missing (falsy) required field throws
CONFIG_ERROR carrying the variant name; `scopes` falls back to the default
scopes only when undefined. -/
def construct (spec : ProviderSpec) (c : ProviderConfig) : Except OAuthError Instance :=
  if !truthy c.clientId then
    .error (mkOAuthError "clientId is required" (some spec.name) "CONFIG_ERROR")
  else if !truthy c.clientSecret then
    .error (mkOAuthError "clientSecret is required" (some spec.name) "CONFIG_ERROR")
  else if !truthy c.redirectUri then
    .error (mkOAuthError "redirectUri is required" (some spec.name) "CONFIG_ERROR")
  else
    .ok { spec := spec
          clientId := c.clientId.getD ""
          clientSecret := c.clientSecret.getD ""
          redirectUri := c.redirectUri.getD ""
          scopes := c.scopes.getD spec.defaultScopes }

/-- Options of getRedirectUrl. -/
structure RedirectOptions where
  scopes : Option (List String) := none
  state : JStr := none
deriving Repr, DecidableEq

/-- The ordered query parameters getRedirectUrl builds (URLSearchParams keeps
insertion order; `set` on the absent key `state` appends; the addAuthParams
hook is a no-op in all three shipped providers). -/
def redirectParams (inst : Instance) (opts : RedirectOptions) : List (String × String) :=
  let scopes := opts.scopes.getD inst.scopes
  [("client_id", inst.clientId),
   ("redirect_uri", inst.redirectUri),
   ("response_type", "code"),
   ("scope", String.intercalate " " scopes)] ++
  (if truthy opts.state then [("state", opts.state.getD "")] else [])

/-- Serialization of one query pair, with the x-www-form-urlencoded space
encoding URLSearchParams.toString uses (other reserved-character escapes are
irrelevant to the claims and omitted). -/
def encodePair (p : String × String) : String :=
  p.1 ++ "=" ++ (p.2.replace " " "+")

/-- getRedirectUrl: the authorization endpoint plus the serialized query. -/
def getRedirectUrl (inst : Instance) (opts : RedirectOptions) : String :=
  inst.spec.authorizationUrl ++ "?" ++
    String.intercalate "&" ((redirectParams inst opts).map encodePair)

/-- Callback parameters extracted from the incoming request by _extractParams. -/
structure CallbackParams where
  code : JStr := none
  state : JStr := none
  error : JStr := none
  errorDescription : JStr := none
deriving Repr, DecidableEq

/-- Options of handleCallback. -/
structure CallbackOptions where
  state : JStr := none
deriving Repr, DecidableEq

/-- The parsed body of the token endpoint response; extra provider-specific
fields are irrelevant to the control flow and omitted. -/
structure TokenResponse where
  access_token : JStr := none
  error : JStr := none
  error_description : JStr := none
deriving Repr, DecidableEq

/-- Error-field view of a token response body (it has no `message` field). -/
def tokenErrView : ErrView TokenResponse :=
  { error_description := fun d => d.error_description
    message := fun _ => none
    error := fun d => d.error }

/-- _exchangeCode: POST the token endpoint (via request), then treat a truthy
`error` field — even under HTTP 200 — or a missing/falsy `access_token` as
TOKEN_ERROR carrying the variant name. -/
def exchangeCode (inst : Instance) (outcome : FetchOutcome TokenResponse) :
    Except OAuthError TokenResponse :=
  match request inst.spec.tokenUrl tokenErrView outcome with
  | .error e => .error e
  | .ok data =>
    if truthy data.error then
      .error (mkOAuthError
        (if truthy data.error_description then data.error_description.getD ""
         else "Token exchange failed: " ++ data.error.getD "")
        (some inst.spec.name) "TOKEN_ERROR")
    else if !truthy data.access_token then
      .error (mkOAuthError "No access token received from provider"
        (some inst.spec.name) "TOKEN_ERROR")
    else
      .ok data

/-- A normalized user as returned by a fetchUser hook, before handleCallback
attaches the access token.  The opaque `raw` field (the original profile
response) is claim-irrelevant and omitted. -/
structure UserNT where
  provider : String
  id : String
  email : JStr
  name : JStr
  avatar : JStr
deriving Repr, DecidableEq

/-- A normalized user after handleCallback attached the access token. -/
structure User where
  provider : String
  id : String
  email : JStr
  name : JStr
  avatar : JStr
  accessToken : String
deriving Repr, DecidableEq

/-- handleCallback of base.js, from the extracted CallbackParams onward,
parameterized over the token-endpoint oracle and the provider-specific
fetchUser hook (which reports the request URLs it issued).  Returns the
outcome together with the ordered list of network request URLs issued. -/
def handleCallbackCore (inst : Instance) (params : CallbackParams)
    (opts : CallbackOptions) (tokenOutcome : FetchOutcome TokenResponse)
    (fetchUser : String → (Except OAuthError UserNT) × List String) :
    (Except OAuthError User) × List String :=
  if truthy params.error then
    (.error (mkOAuthError
      (if truthy params.errorDescription then params.errorDescription.getD ""
       else "Authorization denied: " ++ params.error.getD "")
      (some inst.spec.name) (params.error.getD "")), [])
  else if !truthy params.code then
    (.error (mkOAuthError "No authorization code received in callback"
      (some inst.spec.name) "MISSING_CODE"), [])
  else
    match (if truthy opts.state then validateState opts.state params.state
           else .ok ()) with
    | .error e => (.error e, [])
    | .ok _ =>
      match exchangeCode inst tokenOutcome with
      | .error e => (.error e, [inst.spec.tokenUrl])
      | .ok tokenData =>
        let accessToken := tokenData.access_token.getD ""
        match fetchUser accessToken with
        | (.error e, calls) => (.error e, inst.spec.tokenUrl :: calls)
        | (.ok u, calls) =>
          (.ok { provider := u.provider, id := u.id, email := u.email,
                 name := u.name, avatar := u.avatar,
                 accessToken := accessToken }, inst.spec.tokenUrl :: calls)

/-! Provider variants. -/

/-- A JSON id value, which a provider may return as a string or a number;
`String(id)` stringifies either. -/
inductive JsId where
  | str (s : String)
  | num (n : Int)
deriving Repr, DecidableEq

/-- JS `String(id)`. -/
def JsId.toJsString : JsId → String
  | .str s => s
  | .num n => toString n

/-- The github.js subclass data. -/
def githubSpec : ProviderSpec :=
  { name := "github"
    authorizationUrl := "https://github.com/login/oauth/authorize"
    tokenUrl := "https://github.com/login/oauth/access_token"
    defaultScopes := ["read:user", "user:email"] }

/-- The google.js subclass data. -/
def googleSpec : ProviderSpec :=
  { name := "google"
    authorizationUrl := "https://accounts.google.com/o/oauth2/v2/auth"
    tokenUrl := "https://oauth2.googleapis.com/token"
    defaultScopes := ["openid", "email", "profile"] }

/-- The discord.js subclass data. -/
def discordSpec : ProviderSpec :=
  { name := "discord"
    authorizationUrl := "https://discord.com/api/oauth2/authorize"
    tokenUrl := "https://discord.com/api/oauth2/token"
    defaultScopes := ["identify", "email"] }

/-- An error-field view for profile bodies whose modelled shape carries no
error fields (a 2xx body is returned as-is; the message fields of a non-2xx
body are provider-specific and irrelevant to every claim, so the accesses
model as undefined). -/
def noErrView (α : Type) : ErrView α :=
  { error_description := fun _ => none
    message := fun _ => none
    error := fun _ => none }

/-! Google (google.js). -/

/-- The Google userinfo profile body, as read by google.js. -/
structure GoogleProfile where
  id : JsId
  email : JStr := none
  name : JStr := none
  picture : JStr := none
deriving Repr, DecidableEq

/-- URL of the Google userinfo request. -/
def googleUserinfoUrl : String := "https://www.googleapis.com/oauth2/v2/userinfo"

/-- GoogleProvider.fetchUser: one profile request, direct field mapping with
`|| null` defaults; note `name: profile.name || null` may be null. -/
def googleFetchUser (_accessToken : String) (profileOutcome : FetchOutcome GoogleProfile) :
    (Except OAuthError UserNT) × List String :=
  match request googleUserinfoUrl (noErrView GoogleProfile) profileOutcome with
  | .error e => (.error e, [googleUserinfoUrl])
  | .ok profile =>
    (.ok { provider := "google"
           id := profile.id.toJsString
           email := jsOr profile.email none
           name := jsOr profile.name none
           avatar := jsOr profile.picture none }, [googleUserinfoUrl])

/-- The network oracle of one Google handleCallback run. -/
structure GoogleWorld where
  token : FetchOutcome TokenResponse
  profile : FetchOutcome GoogleProfile
deriving Repr, DecidableEq

/-- handleCallback on a Google instance. -/
def googleHandleCallback (inst : Instance) (params : CallbackParams)
    (opts : CallbackOptions) (w : GoogleWorld) :
    (Except OAuthError User) × List String :=
  handleCallbackCore inst params opts w.token (fun tok => googleFetchUser tok w.profile)

/-! Discord (discord.js). -/

/-- The Discord users/@me profile body, as read by discord.js. -/
structure DiscordProfile where
  id : JsId
  email : JStr := none
  global_name : JStr := none
  username : JStr := none
  avatar : JStr := none
deriving Repr, DecidableEq

/-- URL of the Discord profile request. -/
def discordMeUrl : String := "https://discord.com/api/v10/users/@me"

/-- JS String.prototype.startsWith, modelled on the codepoint sequence
(consistent with the bufBytes view of strings). -/
def strStartsWith (s p : String) : Bool := p.data.isPrefixOf s.data

/-- The CDN avatar synthesis of discord.js: a truthy hash beginning with the
animated marker a_ yields a gif URL, any other truthy hash a png URL, a
falsy hash null. -/
def discordAvatar (id : JsId) (hash : JStr) : JStr :=
  if truthy hash then
    let h := hash.getD ""
    let ext := if strStartsWith h "a_" then "gif" else "png"
    some ("https://cdn.discordapp.com/avatars/" ++ id.toJsString ++ "/" ++ h ++ "." ++ ext)
  else none

/-- DiscordProvider.fetchUser: one profile request; display name is
`global_name || username`; avatar from the CDN template. -/
def discordFetchUser (_accessToken : String) (profileOutcome : FetchOutcome DiscordProfile) :
    (Except OAuthError UserNT) × List String :=
  match request discordMeUrl (noErrView DiscordProfile) profileOutcome with
  | .error e => (.error e, [discordMeUrl])
  | .ok profile =>
    (.ok { provider := "discord"
           id := profile.id.toJsString
           email := jsOr profile.email none
           name := jsOr profile.global_name profile.username
           avatar := discordAvatar profile.id profile.avatar }, [discordMeUrl])

/-- The network oracle of one Discord handleCallback run. -/
structure DiscordWorld where
  token : FetchOutcome TokenResponse
  profile : FetchOutcome DiscordProfile
deriving Repr, DecidableEq

/-- handleCallback on a Discord instance. -/
def discordHandleCallback (inst : Instance) (params : CallbackParams)
    (opts : CallbackOptions) (w : DiscordWorld) :
    (Except OAuthError User) × List String :=
  handleCallbackCore inst params opts w.token (fun tok => discordFetchUser tok w.profile)

/-! GitHub (github.js). -/

/-- The GitHub user profile body, as read by github.js. -/
structure GHProfile where
  id : JsId
  email : JStr := none
  name : JStr := none
  login : JStr := none
  avatar_url : JStr := none
deriving Repr, DecidableEq

/-- One entry of the GitHub user/emails response. -/
structure GHEmail where
  email : String
  primary : Bool
  verified : Bool
deriving Repr, DecidableEq

/-- URL of the GitHub profile request. -/
def githubUserUrl : String := "https://api.github.com/user"

/-- URL of the GitHub emails request. -/
def githubEmailsUrl : String := "https://api.github.com/user/emails"

/-- The email selection of github.js over a fetched emails list:
`primary?.email || emails.find(verified)?.email || null` where primary is the
first entry that is both primary and verified. -/
def githubSelectEmail (emails : List GHEmail) : JStr :=
  let primary := emails.find? (fun e => e.primary && e.verified)
  jsOr (jsOr (primary.map (fun e => e.email))
             ((emails.find? (fun e => e.verified)).map (fun e => e.email)))
       none

/-- GitHubProvider.fetchUser: profile request; when the profile email is falsy
a secondary emails request runs, whose failure is absorbed into a null email
(the catch branch); display name is `name || login`. -/
def githubFetchUser (_accessToken : String) (profileOutcome : FetchOutcome GHProfile)
    (emailsOutcome : FetchOutcome (List GHEmail)) :
    (Except OAuthError UserNT) × List String :=
  match request githubUserUrl (noErrView GHProfile) profileOutcome with
  | .error e => (.error e, [githubUserUrl])
  | .ok profile =>
    let emailAndCalls : JStr × List String :=
      if truthy profile.email then (profile.email, [])
      else
        match request githubEmailsUrl (noErrView (List GHEmail)) emailsOutcome with
        | .error _ => (none, [githubEmailsUrl])
        | .ok emails => (githubSelectEmail emails, [githubEmailsUrl])
    (.ok { provider := "github"
           id := profile.id.toJsString
           email := emailAndCalls.1
           name := jsOr profile.name profile.login
           avatar := jsOr profile.avatar_url none },
     githubUserUrl :: emailAndCalls.2)

/-- The network oracle of one GitHub handleCallback run. -/
structure GitHubWorld where
  token : FetchOutcome TokenResponse
  profile : FetchOutcome GHProfile
  emails : FetchOutcome (List GHEmail)
deriving Repr, DecidableEq

/-- handleCallback on a GitHub instance. -/
def githubHandleCallback (inst : Instance) (params : CallbackParams)
    (opts : CallbackOptions) (w : GitHubWorld) :
    (Except OAuthError User) × List String :=
  handleCallbackCore inst params opts w.token
    (fun tok => githubFetchUser tok w.profile w.emails)

/-! Shared lemmas. -/

/-- A bitwise OR of naturals is zero exactly when both operands are. -/
theorem lor_eq_zero_iff (a b : Nat) : a ||| b = 0 ↔ a = 0 ∧ b = 0 := by
  constructor
  · intro h
    constructor
    · apply Nat.eq_of_testBit_eq
      intro i
      have hb := congrArg (fun n => n.testBit i) h
      simp only [Nat.testBit_or, Nat.zero_testBit, Bool.or_eq_false_iff] at hb
      simp [hb.1]
    · apply Nat.eq_of_testBit_eq
      intro i
      have hb := congrArg (fun n => n.testBit i) h
      simp only [Nat.testBit_or, Nat.zero_testBit, Bool.or_eq_false_iff] at hb
      simp [hb.2]
  · rintro ⟨rfl, rfl⟩
    simp

/-- Folding OR over a list yields zero exactly when the accumulator and every
element are zero: the accumulator of the constant-time loop remembers every
inspected pair, so no byte is skipped. -/
theorem foldl_lor_eq_zero (l : List Nat) (acc : Nat) :
    l.foldl (fun a v => a ||| v) acc = 0 ↔ acc = 0 ∧ ∀ x ∈ l, x = 0 := by
  induction l generalizing acc with
  | nil => simp
  | cons x l ih =>
    simp only [List.foldl_cons, ih, lor_eq_zero_iff, List.mem_cons]
    constructor
    · rintro ⟨⟨h1, h2⟩, h3⟩
      exact ⟨h1, fun y hy => hy.elim (fun hx => hx ▸ h2) (h3 y)⟩
    · rintro ⟨h1, h2⟩
      exact ⟨⟨h1, h2 x (Or.inl rfl)⟩, fun y hy => h2 y (Or.inr hy)⟩

/-- On equal-length byte lists the constant-time comparison decides exactly
list equality. -/
theorem timingSafeEqual_eq_true_iff (a b : List Nat) (h : a.length = b.length) :
    timingSafeEqual a b = true ↔ a = b := by
  unfold timingSafeEqual
  rw [decide_eq_true_iff, foldl_lor_eq_zero]
  simp only [true_and]
  induction a generalizing b with
  | nil =>
    cases b with
    | nil => simp
    | cons y b => simp at h
  | cons x a ih =>
    cases b with
    | nil => simp at h
    | cons y b =>
      simp only [List.zipWith_cons_cons, List.mem_cons, List.cons.injEq]
      constructor
      · intro hz
        have hx : x ^^^ y = 0 := hz _ (Or.inl rfl)
        refine ⟨Nat.xor_eq_zero.mp hx, ?_⟩
        exact (ih b (by simpa using h)).mp (fun z hzmem => hz z (Or.inr hzmem))
      · rintro ⟨rfl, rfl⟩
        intro z hz
        rcases hz with hz | hz
        · simp [hz]
        · exact (ih a rfl).mpr rfl z hz

/-- The modelled byte view of a string is injective. -/
theorem bufBytes_injective (a b : String) (h : bufBytes a = bufBytes b) : a = b := by
  apply String.ext
  apply List.map_injective_iff.mpr ?_ h
  intro x y hxy
  apply Char.ext
  unfold Char.toNat at hxy
  cases hv : x.val with
  | _ =>
    cases hw : y.val with
    | _ =>
      rw [hv, hw] at hxy
      simp only [UInt32.toNat] at hxy
      congr 1
      exact BitVec.eq_of_toNat_eq hxy

/-- mkOAuthError with a non-empty provider name and non-empty code keeps both
fields verbatim. -/
theorem mkOAuthError_named (m n c : String) (hn : n.isEmpty = false)
    (hc : c.isEmpty = false) :
    mkOAuthError m (some n) c = { message := m, provider := some n, code := c } := by
  simp [mkOAuthError, truthy, hn, hc]

/-- The code field of mkOAuthError is kept verbatim when non-empty. -/
theorem mkOAuthError_code (m : String) (p : JStr) (c : String)
    (hc : c.isEmpty = false) : (mkOAuthError m p c).code = c := by
  simp [mkOAuthError, hc]

/-- The STATE_MISSING error value validateState throws. -/
def stateMissingError : OAuthError :=
  mkOAuthError "State parameter missing - potential CSRF attack" none "STATE_MISSING"

/-- The STATE_MISMATCH error value validateState throws. -/
def stateMismatchError : OAuthError :=
  mkOAuthError "State mismatch - potential CSRF attack" none "STATE_MISMATCH"

/-- validateState succeeds on two equal non-empty strings. -/
theorem validateState_self (s : String) (h : s.isEmpty = false) :
    validateState (some s) (some s) = .ok () := by
  simp [validateState, truthy, h, timingSafeEqual_eq_true_iff]

/-- validateState raises STATE_MISSING as soon as either argument is falsy. -/
theorem validateState_missing (e r : JStr) (h : truthy e = false ∨ truthy r = false) :
    validateState e r = .error stateMissingError := by
  rcases h with h | h <;> simp [validateState, h, stateMissingError]

/-- validateState raises STATE_MISMATCH on two distinct non-empty strings. -/
theorem validateState_mismatch (x y : String) (hx : x.isEmpty = false)
    (hy : y.isEmpty = false) (hne : x ≠ y) :
    validateState (some x) (some y) = .error stateMismatchError := by
  simp only [validateState, truthy, hx, hy, Bool.not_false, Bool.or_self,
    Bool.false_eq_true, if_false, Option.getD_some, stateMismatchError]
  by_cases hlen : (bufBytes x).length = (bufBytes y).length
  · have : timingSafeEqual (bufBytes x) (bufBytes y) = false := by
      rw [← Bool.not_eq_true, timingSafeEqual_eq_true_iff _ _ hlen]
      intro hb
      exact hne (bufBytes_injective _ _ hb)
    simp [hlen, this]
  · simp [hlen]

/-! Claim theorems. -/

/-- C3: validateState raises STATE_MISSING when either argument is absent
(falsy — null, undefined or empty, as the source guard treats them alike);
it succeeds on any non-empty x compared with itself; it raises STATE_MISMATCH
on any two distinct non-empty strings, of equal or differing length; and the
underlying constant-time comparison decides exactly byte-list equality on the
full length — the OR-accumulator form never short-circuits on an early
difference. -/
theorem claim_C3 :
    (∀ e r : JStr, (truthy e = false ∨ truthy r = false) →
      validateState e r = .error stateMissingError) ∧
    (∀ x : String, x.isEmpty = false →
      validateState (some x) (some x) = .ok ()) ∧
    (∀ x y : String, x.isEmpty = false → y.isEmpty = false → x ≠ y →
      validateState (some x) (some y) = .error stateMismatchError) ∧
    (∀ a b : List Nat, a.length = b.length →
      (timingSafeEqual a b = true ↔ a = b)) :=
  ⟨validateState_missing, validateState_self, validateState_mismatch,
    timingSafeEqual_eq_true_iff⟩

/-- Witness for C3 at concrete inputs: a matching pair succeeds, an
equal-length mismatch and a different-length mismatch both raise
STATE_MISMATCH, and a missing argument raises STATE_MISSING. -/
theorem claim_C3_witness :
    validateState (some "abc123") (some "abc123") = .ok () ∧
    validateState (some "abc123") (some "abc124") = .error stateMismatchError ∧
    validateState (some "abc123") (some "abc1234") = .error stateMismatchError ∧
    validateState none (some "abc123") = .error stateMissingError :=
  ⟨claim_C3.2.1 "abc123" (by decide),
   claim_C3.2.2.1 "abc123" "abc124" (by decide) (by decide) (by decide),
   claim_C3.2.2.1 "abc123" "abc1234" (by decide) (by decide) (by decide),
   claim_C3.1 none (some "abc123") (Or.inl (by decide))⟩

/-! Demo fixtures used by witnesses and counterexamples. -/

/-- A valid provider configuration. -/
def demoConfig : ProviderConfig :=
  { clientId := some "id123"
    clientSecret := some "secret456"
    redirectUri := some "https://app.example.com/cb" }

/-- The GitHub instance the constructor builds from demoConfig. -/
def demoGithub : Instance :=
  { spec := githubSpec
    clientId := "id123"
    clientSecret := "secret456"
    redirectUri := "https://app.example.com/cb"
    scopes := githubSpec.defaultScopes }

/-- The Google instance the constructor builds from demoConfig. -/
def demoGoogle : Instance :=
  { spec := googleSpec
    clientId := "id123"
    clientSecret := "secret456"
    redirectUri := "https://app.example.com/cb"
    scopes := googleSpec.defaultScopes }

/-- demoGithub is what construct yields on demoConfig. -/
theorem construct_demoGithub : construct githubSpec demoConfig = .ok demoGithub := rfl

/-- demoGoogle is what construct yields on demoConfig. -/
theorem construct_demoGoogle : construct googleSpec demoConfig = .ok demoGoogle := rfl

/-- A fetchUser stand-in used where the provider hook is never reached. -/
def unreachedFetchUser : String → (Except OAuthError UserNT) × List String :=
  fun _ => (.error (mkOAuthError "unreached" none "UNREACHED"), ["unreached-url"])

/-- C1: when the caller requested state validation (options.state supplied)
and the validation fails, handleCallback issues no network request at all —
the trace of request URLs is empty, so neither the token exchange nor any
profile request happens — and the call fails; when the earlier error/code
checks do not preempt it, the raised error is exactly the StateValidator
error. -/
theorem claim_C1 (inst : Instance) (params : CallbackParams) (opts : CallbackOptions)
    (tokenOutcome : FetchOutcome TokenResponse)
    (fetchUser : String → (Except OAuthError UserNT) × List String)
    (e : OAuthError)
    (hs : truthy opts.state = true)
    (hv : validateState opts.state params.state = .error e) :
    (handleCallbackCore inst params opts tokenOutcome fetchUser).2 = [] ∧
    (∃ failure : OAuthError,
      (handleCallbackCore inst params opts tokenOutcome fetchUser).1 = .error failure) ∧
    (truthy params.error = false → truthy params.code = true →
      handleCallbackCore inst params opts tokenOutcome fetchUser = (.error e, [])) := by
  cases he : truthy params.error with
  | true => refine ⟨?_, ?_, ?_⟩ <;> simp [handleCallbackCore, he]
  | false =>
    cases hc : truthy params.code with
    | false => refine ⟨?_, ?_, ?_⟩ <;> simp [handleCallbackCore, he, hc]
    | true => refine ⟨?_, ?_, ?_⟩ <;> simp [handleCallbackCore, he, hc, hs, hv]

/-- Witness for C1: a tampered state on a GitHub callback with a valid code
fails with the mismatch error and issues no network request, even though the
network oracle would have answered. -/
theorem claim_C1_witness :
    truthy (some "expectedstate") = true ∧
    validateState (some "expectedstate") (some "tamperedstate") =
      .error stateMismatchError ∧
    handleCallbackCore demoGithub
      { code := some "authcode", state := some "tamperedstate" }
      { state := some "expectedstate" }
      (.netFail "connection refused") unreachedFetchUser =
      (.error stateMismatchError, []) :=
  ⟨by decide,
   validateState_mismatch "expectedstate" "tamperedstate" (by decide) (by decide)
     (by decide),
   (claim_C1 demoGithub
      { code := some "authcode", state := some "tamperedstate" }
      { state := some "expectedstate" }
      (.netFail "connection refused") unreachedFetchUser stateMismatchError
      (by decide)
      (validateState_mismatch "expectedstate" "tamperedstate" (by decide) (by decide)
        (by decide))).2.2 (by decide) (by decide)⟩

/-- C2: a callback whose extracted parameters carry a (truthy) error value
fails immediately — before any network request — with an error whose code is
the provider token itself, regardless of whether a code parameter is also
present; with neither error nor code present the callback fails with
MISSING_CODE. -/
theorem claim_C2 (inst : Instance) (params : CallbackParams) (opts : CallbackOptions)
    (tokenOutcome : FetchOutcome TokenResponse)
    (fetchUser : String → (Except OAuthError UserNT) × List String)
    (hname : inst.spec.name.isEmpty = false) :
    (truthy params.error = true →
      handleCallbackCore inst params opts tokenOutcome fetchUser =
        (.error { message := if truthy params.errorDescription
                      then params.errorDescription.getD ""
                      else "Authorization denied: " ++ params.error.getD ""
                  provider := some inst.spec.name
                  code := params.error.getD "" }, [])) ∧
    (truthy params.error = false → truthy params.code = false →
      handleCallbackCore inst params opts tokenOutcome fetchUser =
        (.error { message := "No authorization code received in callback"
                  provider := some inst.spec.name
                  code := "MISSING_CODE" }, [])) := by
  constructor
  · intro he
    have hcode : (params.error.getD "").isEmpty = false := by
      cases hpe : params.error with
      | none => rw [hpe] at he; simp [truthy] at he
      | some s => rw [hpe] at he; simpa [truthy] using he
    simp only [handleCallbackCore]
    rw [if_pos he, mkOAuthError_named _ _ _ hname hcode]
  · intro he hc
    simp only [handleCallbackCore]
    rw [if_neg (by simp [he]), if_pos (by simp [hc]),
      mkOAuthError_named _ _ _ hname (by decide)]

/-- Witness for C2: a denial callback carrying both error=access_denied and a
code fails with code access_denied; an empty callback fails with
MISSING_CODE. -/
theorem claim_C2_witness :
    handleCallbackCore demoGithub
      { code := some "authcode", error := some "access_denied" }
      {} (.netFail "connection refused") unreachedFetchUser =
      (.error { message := "Authorization denied: access_denied"
                provider := some "github"
                code := "access_denied" }, []) ∧
    handleCallbackCore demoGithub {} {} (.netFail "connection refused")
      unreachedFetchUser =
      (.error { message := "No authorization code received in callback"
                provider := some "github"
                code := "MISSING_CODE" }, []) :=
  ⟨(claim_C2 demoGithub
      { code := some "authcode", error := some "access_denied" }
      {} (.netFail "connection refused") unreachedFetchUser (by decide)).1 (by decide),
   (claim_C2 demoGithub {} {} (.netFail "connection refused")
      unreachedFetchUser (by decide)).2 (by decide) (by decide)⟩

/-- A user-without-token value returned by a successful profile fetch. -/
def demoUserNT : UserNT :=
  { provider := "github", id := "1", email := none
    name := some "Octo", avatar := none }

/-- A fetchUser stand-in that succeeds with demoUserNT after one profile
request. -/
def demoFetchOk : String → (Except OAuthError UserNT) × List String :=
  fun _ => (.ok demoUserNT, [githubUserUrl])

/-- C6: under a successful HTTP status, the token exchange fails with a
TOKEN_ERROR exactly when the parsed body carries a (truthy) error field or
lacks a (truthy) access_token; otherwise, whenever the remaining callback
checks pass and the profile hook succeeds, handleCallback returns the user
with accessToken equal to the access_token of the token response. -/
theorem claim_C6 (inst : Instance) (status : Nat) (data : TokenResponse)
    (hok : statusOk status = true) :
    ((∃ e : OAuthError, exchangeCode inst (.response status data) = .error e ∧
        e.code = "TOKEN_ERROR") ↔
      (truthy data.error = true ∨ truthy data.access_token = false)) ∧
    (truthy data.error = false → truthy data.access_token = true →
      ∀ (params : CallbackParams) (opts : CallbackOptions)
        (fetchUser : String → (Except OAuthError UserNT) × List String)
        (u : UserNT) (calls : List String),
        truthy params.error = false → truthy params.code = true →
        (if truthy opts.state then validateState opts.state params.state
         else Except.ok ()) = .ok () →
        fetchUser (data.access_token.getD "") = (.ok u, calls) →
        (handleCallbackCore inst params opts (.response status data) fetchUser).1 =
          .ok { provider := u.provider, id := u.id, email := u.email,
                name := u.name, avatar := u.avatar,
                accessToken := data.access_token.getD "" }) := by
  have hreq : request inst.spec.tokenUrl tokenErrView (.response status data) =
      .ok data := by
    simp [request, hok]
  constructor
  · cases herr : truthy data.error with
    | true =>
      constructor
      · intro _
        exact Or.inl rfl
      · intro _
        refine ⟨mkOAuthError
          (if truthy data.error_description then data.error_description.getD ""
           else "Token exchange failed: " ++ data.error.getD "")
          (some inst.spec.name) "TOKEN_ERROR", ?_,
          mkOAuthError_code _ _ _ (by decide)⟩
        simp [exchangeCode, hreq, herr]
    | false =>
      cases hat : truthy data.access_token with
      | true =>
        constructor
        · rintro ⟨e, he, _⟩
          rw [show exchangeCode inst (.response status data) = .ok data by
            simp [exchangeCode, hreq, herr, hat]] at he
          exact absurd he (by simp)
        · rintro (h | h) <;> simp_all
      | false =>
        constructor
        · intro _
          exact Or.inr rfl
        · intro _
          refine ⟨mkOAuthError "No access token received from provider"
            (some inst.spec.name) "TOKEN_ERROR", ?_,
            mkOAuthError_code _ _ _ (by decide)⟩
          simp [exchangeCode, hreq, herr, hat]
  · intro herr hat params opts fetchUser u calls hpe hpc hst hfu
    have hex : exchangeCode inst (.response status data) = .ok data := by
      simp [exchangeCode, hreq, herr, hat]
    simp only [handleCallbackCore]
    rw [if_neg (by simp [hpe]), if_neg (by simp [hpc]), hst, hex]
    simp [hfu]

/-- Witness for C6: a 200 token response whose body is an error object fails
with TOKEN_ERROR; a clean token response threads tok99 into the returned
user. -/
theorem claim_C6_witness :
    (truthy (some "invalid_grant") = true ∨
      truthy (TokenResponse.access_token
        { error := some "invalid_grant" }) = false) ∧
    (∃ e : OAuthError, exchangeCode demoGithub
        (.response 200 { error := some "invalid_grant" }) = .error e ∧
      e.code = "TOKEN_ERROR") ∧
    (handleCallbackCore demoGithub { code := some "authcode" } {}
        (.response 200 { access_token := some "tok99" }) demoFetchOk).1 =
      .ok { provider := "github", id := "1", email := none, name := some "Octo",
            avatar := none, accessToken := "tok99" } :=
  ⟨Or.inl (by decide),
   (claim_C6 demoGithub 200 { error := some "invalid_grant" } (by decide)).1.mpr
     (Or.inl (by decide)),
   (claim_C6 demoGithub 200 { access_token := some "tok99" } (by decide)).2
     (by decide) (by decide) { code := some "authcode" } {} demoFetchOk demoUserNT
     [githubUserUrl] (by decide) (by decide) rfl rfl⟩

/-- The selection chain picks the first primary-and-verified entry when one
exists (and its address is non-empty). -/
theorem githubSelectEmail_primary (emails : List GHEmail) (p : GHEmail)
    (hp : emails.find? (fun e => e.primary && e.verified) = some p)
    (hne : p.email.isEmpty = false) :
    githubSelectEmail emails = some p.email := by
  simp [githubSelectEmail, hp, jsOr, truthy, hne]

/-- With no primary-and-verified entry the chain picks the first verified
entry (when its address is non-empty). -/
theorem githubSelectEmail_verified (emails : List GHEmail) (w : GHEmail)
    (hp : emails.find? (fun e => e.primary && e.verified) = none)
    (hw : emails.find? (fun e => e.verified) = some w)
    (hne : w.email.isEmpty = false) :
    githubSelectEmail emails = some w.email := by
  simp [githubSelectEmail, hp, hw, jsOr, truthy, hne]

/-- With no verified entry at all the chain yields null. -/
theorem githubSelectEmail_noVerified (emails : List GHEmail)
    (hv : emails.find? (fun e => e.verified) = none) :
    githubSelectEmail emails = none := by
  have hp : emails.find? (fun e => e.primary && e.verified) = none := by
    rw [List.find?_eq_none] at hv ⊢
    intro x hx hpx
    exact hv x hx (by simpa using (Bool.and_eq_true _ _ |>.mp hpx).2)
  simp [githubSelectEmail, hp, hv, jsOr, truthy]

/-- C7: when the GitHub profile carries no (truthy) email, fetchUser issues
the secondary emails request; a failing secondary request degrades to a null
email with fetchUser still succeeding, and a successful one resolves the
email through the selection chain: first primary-and-verified entry, else
first verified entry, else null. -/
theorem claim_C7 (tok : String) (status : Nat) (profile : GHProfile)
    (hok : statusOk status = true)
    (hemail : truthy profile.email = false) :
    (∀ emailsOutcome : FetchOutcome (List GHEmail),
      (∃ err, request githubEmailsUrl (noErrView (List GHEmail)) emailsOutcome =
        .error err) →
      githubFetchUser tok (.response status profile) emailsOutcome =
        (.ok { provider := "github", id := profile.id.toJsString, email := none,
               name := jsOr profile.name profile.login,
               avatar := jsOr profile.avatar_url none },
         [githubUserUrl, githubEmailsUrl])) ∧
    (∀ (estatus : Nat) (emails : List GHEmail), statusOk estatus = true →
      githubFetchUser tok (.response status profile) (.response estatus emails) =
        (.ok { provider := "github", id := profile.id.toJsString,
               email := githubSelectEmail emails,
               name := jsOr profile.name profile.login,
               avatar := jsOr profile.avatar_url none },
         [githubUserUrl, githubEmailsUrl])) ∧
    (∀ (emails : List GHEmail) (p : GHEmail),
      emails.find? (fun e => e.primary && e.verified) = some p →
      p.email.isEmpty = false → githubSelectEmail emails = some p.email) ∧
    (∀ (emails : List GHEmail) (w : GHEmail),
      emails.find? (fun e => e.primary && e.verified) = none →
      emails.find? (fun e => e.verified) = some w →
      w.email.isEmpty = false → githubSelectEmail emails = some w.email) ∧
    (∀ emails : List GHEmail,
      emails.find? (fun e => e.verified) = none →
      githubSelectEmail emails = none) := by
  have hpreq : request githubUserUrl (noErrView GHProfile)
      (.response status profile) = .ok profile := by
    simp [request, hok]
  refine ⟨?_, ?_, githubSelectEmail_primary, githubSelectEmail_verified,
    githubSelectEmail_noVerified⟩
  · rintro eo ⟨err, herr⟩
    simp [githubFetchUser, hpreq, hemail, herr]
  · intro estatus emails heok
    have hereq : request githubEmailsUrl (noErrView (List GHEmail))
        (.response estatus emails) = .ok emails := by
      simp [request, heok]
    simp [githubFetchUser, hpreq, hemail, hereq]

/-- A GitHub profile without a public email, used by the C7 witness. -/
def demoGHProfile : GHProfile :=
  { id := .num 77, email := none, name := some "Octo Cat"
    login := some "octocat", avatar_url := some "https://a.example/av.png" }

/-- Witness for C7 at concrete inputs: a failing secondary request degrades
to a null email without failing; a primary-and-verified entry wins; a
verified entry is used when no primary-and-verified one exists; no verified
entry yields null. -/
theorem claim_C7_witness :
    githubFetchUser "tok" (.response 200 demoGHProfile) (.netFail "dns down") =
      (.ok { provider := "github", id := "77", email := none,
             name := jsOr demoGHProfile.name demoGHProfile.login,
             avatar := jsOr demoGHProfile.avatar_url none },
       [githubUserUrl, githubEmailsUrl]) ∧
    githubSelectEmail
      [{ email := "a@x.example", primary := true, verified := true },
       { email := "b@x.example", primary := false, verified := true }] =
      some "a@x.example" ∧
    githubSelectEmail
      [{ email := "b@x.example", primary := true, verified := false },
       { email := "c@x.example", primary := false, verified := true }] =
      some "c@x.example" ∧
    githubSelectEmail [{ email := "d@x.example", primary := false, verified := false }] =
      none :=
  ⟨(claim_C7 "tok" 200 demoGHProfile (by decide) (by decide)).1 (.netFail "dns down")
     ⟨mkOAuthError ("Network request to " ++ githubEmailsUrl ++ " failed: dns down")
        none "NETWORK_ERROR", rfl⟩,
   (claim_C7 "tok" 200 demoGHProfile (by decide) (by decide)).2.2.1
     [{ email := "a@x.example", primary := true, verified := true },
      { email := "b@x.example", primary := false, verified := true }]
     { email := "a@x.example", primary := true, verified := true } (by decide) (by decide),
   (claim_C7 "tok" 200 demoGHProfile (by decide) (by decide)).2.2.2.1
     [{ email := "b@x.example", primary := true, verified := false },
      { email := "c@x.example", primary := false, verified := true }]
     { email := "c@x.example", primary := false, verified := true }
     (by decide) (by decide) (by decide),
   (claim_C7 "tok" 200 demoGHProfile (by decide) (by decide)).2.2.2.2
     [{ email := "d@x.example", primary := false, verified := false }] (by decide)⟩

/-- C8: the Discord avatar is synthesized from the CDN template — a truthy
hash starting with the animated marker a_ yields a gif URL, any other truthy
hash a png URL, and a falsy hash yields null — and fetchUser stores exactly
this synthesized value in the normalized user. -/
theorem claim_C8 :
    (∀ (id : JsId) (h : String), h.isEmpty = false → strStartsWith h "a_" = true →
      discordAvatar id (some h) =
        some ("https://cdn.discordapp.com/avatars/" ++ id.toJsString ++ "/" ++
          h ++ ".gif")) ∧
    (∀ (id : JsId) (h : String), h.isEmpty = false → strStartsWith h "a_" = false →
      discordAvatar id (some h) =
        some ("https://cdn.discordapp.com/avatars/" ++ id.toJsString ++ "/" ++
          h ++ ".png")) ∧
    (∀ id : JsId, discordAvatar id none = none) ∧
    (∀ (tok : String) (status : Nat) (profile : DiscordProfile),
      statusOk status = true →
      ∃ u : UserNT, (discordFetchUser tok (.response status profile)).1 = .ok u ∧
        u.avatar = discordAvatar profile.id profile.avatar) := by
  refine ⟨?_, ?_, ?_, ?_⟩
  · intro id h hne hpre
    simp [discordAvatar, truthy, hne, hpre, String.append_assoc]
  · intro id h hne hpre
    simp [discordAvatar, truthy, hne, hpre, String.append_assoc]
  · intro id
    simp [discordAvatar, truthy]
  · intro tok status profile hok
    refine ⟨{ provider := "discord", id := profile.id.toJsString,
              email := jsOr profile.email none,
              name := jsOr profile.global_name profile.username,
              avatar := discordAvatar profile.id profile.avatar }, ?_, rfl⟩
    simp [discordFetchUser, request, hok]

/-- Witness for C8: hash a_abc123 yields the gif URL, hash abc123 the png
URL, a null hash a null avatar, and a concrete fetchUser run stores the
synthesized value. -/
theorem claim_C8_witness :
    discordAvatar (.num 42) (some "a_abc123") =
      some "https://cdn.discordapp.com/avatars/42/a_abc123.gif" ∧
    discordAvatar (.num 42) (some "abc123") =
      some "https://cdn.discordapp.com/avatars/42/abc123.png" ∧
    discordAvatar (.num 42) none = none ∧
    (∃ u : UserNT, (discordFetchUser "tok"
        (.response 200 { id := .num 42, avatar := some "a_abc123" })).1 = .ok u ∧
      u.avatar = discordAvatar (JsId.num 42) (some "a_abc123")) :=
  ⟨claim_C8.1 (.num 42) "a_abc123" (by decide) (by decide),
   claim_C8.2.1 (.num 42) "abc123" (by decide) (by decide),
   claim_C8.2.2.1 (.num 42),
   claim_C8.2.2.2 "tok" 200 { id := .num 42, avatar := some "a_abc123" } (by decide)⟩

/-! Error-attribution lemmas. -/

/-- mkOAuthError with a null provider and a non-empty code. -/
theorem mkOAuthError_anon (m c : String) (hc : c.isEmpty = false) :
    mkOAuthError m none c = { message := m, provider := none, code := c } := by
  simp [mkOAuthError, truthy, hc]

/-- Every error request throws carries a null provider and a NETWORK_ERROR or
HTTP_ERROR code. -/
theorem request_error_provider {α : Type} (url : String) (v : ErrView α)
    (oc : FetchOutcome α) (e : OAuthError) (h : request url v oc = .error e) :
    e.provider = none ∧ (e.code = "NETWORK_ERROR" ∨ e.code = "HTTP_ERROR") := by
  unfold request at h
  cases oc with
  | netFail msg =>
    simp only [] at h
    rw [mkOAuthError_anon _ _ (by decide)] at h
    injection h with h
    rw [← h]
    exact ⟨rfl, Or.inl rfl⟩
  | response status data =>
    simp only [] at h
    by_cases hok : statusOk status = true
    · rw [if_pos hok] at h
      exact absurd h (by simp)
    · rw [if_neg hok, mkOAuthError_anon _ _ (by decide)] at h
      injection h with h
      rw [← h]
      exact ⟨rfl, Or.inr rfl⟩

/-- Every error validateState throws is one of its two state errors. -/
theorem validateState_error (x y : JStr) (e : OAuthError)
    (h : validateState x y = .error e) :
    e = stateMissingError ∨ e = stateMismatchError := by
  unfold validateState at h
  simp only [] at h
  split at h
  · injection h with h
    exact Or.inl h.symm
  · split at h
    · injection h with h
      exact Or.inr h.symm
    · exact absurd h (by simp)

/-- Every error exchangeCode throws is either its own TOKEN_ERROR carrying
the variant name, or a request error with a null provider. -/
theorem exchangeCode_error (inst : Instance) (oc : FetchOutcome TokenResponse)
    (e : OAuthError) (hname : inst.spec.name.isEmpty = false)
    (h : exchangeCode inst oc = .error e) :
    (e.provider = some inst.spec.name ∧ e.code = "TOKEN_ERROR") ∨
    (e.provider = none ∧ (e.code = "NETWORK_ERROR" ∨ e.code = "HTTP_ERROR")) := by
  unfold exchangeCode at h
  cases hreq : request inst.spec.tokenUrl tokenErrView oc with
  | error e2 =>
    rw [hreq] at h
    simp only [] at h
    injection h with h
    exact Or.inr (h ▸ request_error_provider _ _ _ _ hreq)
  | ok data =>
    rw [hreq] at h
    simp only [] at h
    split at h
    · rw [mkOAuthError_named _ _ _ hname (by decide)] at h
      injection h with h
      rw [← h]
      exact Or.inl ⟨rfl, rfl⟩
    · split at h
      · rw [mkOAuthError_named _ _ _ hname (by decide)] at h
        injection h with h
        rw [← h]
        exact Or.inl ⟨rfl, rfl⟩
      · exact absurd h (by simp)

/-- Every error the Google fetchUser hook surfaces comes from its single
profile request: null provider, NETWORK_ERROR or HTTP_ERROR. -/
theorem googleFetchUser_error (tok : String) (po : FetchOutcome GoogleProfile)
    (e : OAuthError) (calls : List String)
    (h : googleFetchUser tok po = (.error e, calls)) :
    e.provider = none ∧ (e.code = "NETWORK_ERROR" ∨ e.code = "HTTP_ERROR") := by
  unfold googleFetchUser at h
  cases hreq : request googleUserinfoUrl (noErrView GoogleProfile) po with
  | error e2 =>
    rw [hreq] at h
    simp only [] at h
    injection h with h1 h2
    injection h1 with h1
    exact h1 ▸ request_error_provider _ _ _ _ hreq
  | ok profile =>
    rw [hreq] at h
    simp only [] at h
    injection h with h1 h2
    exact absurd h1 (by simp)

/-- Every error the Discord fetchUser hook surfaces comes from its single
profile request: null provider, NETWORK_ERROR or HTTP_ERROR. -/
theorem discordFetchUser_error (tok : String) (po : FetchOutcome DiscordProfile)
    (e : OAuthError) (calls : List String)
    (h : discordFetchUser tok po = (.error e, calls)) :
    e.provider = none ∧ (e.code = "NETWORK_ERROR" ∨ e.code = "HTTP_ERROR") := by
  unfold discordFetchUser at h
  cases hreq : request discordMeUrl (noErrView DiscordProfile) po with
  | error e2 =>
    rw [hreq] at h
    simp only [] at h
    injection h with h1 h2
    injection h1 with h1
    exact h1 ▸ request_error_provider _ _ _ _ hreq
  | ok profile =>
    rw [hreq] at h
    injection h with h1 h2
    exact absurd h1 (by simp)

/-- Every error the GitHub fetchUser hook surfaces comes from its profile
request (the emails request failure is absorbed): null provider,
NETWORK_ERROR or HTTP_ERROR. -/
theorem githubFetchUser_error (tok : String) (po : FetchOutcome GHProfile)
    (eo : FetchOutcome (List GHEmail)) (e : OAuthError) (calls : List String)
    (h : githubFetchUser tok po eo = (.error e, calls)) :
    e.provider = none ∧ (e.code = "NETWORK_ERROR" ∨ e.code = "HTTP_ERROR") := by
  unfold githubFetchUser at h
  cases hreq : request githubUserUrl (noErrView GHProfile) po with
  | error e2 =>
    rw [hreq] at h
    injection h with h1 h2
    injection h1 with h1
    exact h1 ▸ request_error_provider _ _ _ _ hreq
  | ok profile =>
    rw [hreq] at h
    injection h with h1 h2
    exact absurd h1 (by simp)

/-- Classification of every error the generic callback flow can surface,
given that the profile hook surfaces only request errors: the orchestrator's
own errors carry the variant name, while state-validation and request errors
carry a null provider and one of four codes. -/
theorem handleCallbackCore_error_provider (inst : Instance) (params : CallbackParams)
    (opts : CallbackOptions) (tokenOutcome : FetchOutcome TokenResponse)
    (fetchUser : String → (Except OAuthError UserNT) × List String)
    (e : OAuthError) (hname : inst.spec.name.isEmpty = false)
    (hfetch : ∀ tok err calls, fetchUser tok = (.error err, calls) →
      err.provider = none ∧ (err.code = "NETWORK_ERROR" ∨ err.code = "HTTP_ERROR"))
    (h : (handleCallbackCore inst params opts tokenOutcome fetchUser).1 = .error e) :
    e.provider = some inst.spec.name ∨
    (e.provider = none ∧ (e.code = "NETWORK_ERROR" ∨ e.code = "HTTP_ERROR" ∨
      e.code = "STATE_MISSING" ∨ e.code = "STATE_MISMATCH")) := by
  unfold handleCallbackCore at h
  split at h
  · left
    injection h with h
    rw [← h]
    simp [mkOAuthError, truthy, hname]
  · split at h
    · left
      injection h with h
      rw [← h]
      simp [mkOAuthError, truthy, hname]
    · rename_i hpe hpc
      cases hst : (if truthy opts.state then validateState opts.state params.state
          else Except.ok ()) with
      | error everr =>
        rw [hst] at h
        simp only [] at h
        injection h with h
        right
        have : everr = stateMissingError ∨ everr = stateMismatchError := by
          by_cases hos : truthy opts.state = true
          · rw [if_pos hos] at hst
            exact validateState_error _ _ _ hst
          · rw [if_neg hos] at hst
            exact absurd hst (by simp)
        rw [← h]
        rcases this with rfl | rfl
        · exact ⟨rfl, Or.inr (Or.inr (Or.inl rfl))⟩
        · exact ⟨rfl, Or.inr (Or.inr (Or.inr rfl))⟩
      | ok unitv =>
        rw [hst] at h
        simp only [] at h
        cases hex : exchangeCode inst tokenOutcome with
        | error exe =>
          rw [hex] at h
          simp only [] at h
          injection h with h
          rcases exchangeCode_error inst tokenOutcome exe hname hex with
            ⟨hp, _⟩ | ⟨hp, hc⟩
          · exact Or.inl (h ▸ hp)
          · exact Or.inr ⟨h ▸ hp, h ▸ hc.imp id Or.inl⟩
        | ok tokenData =>
          rw [hex] at h
          simp only [] at h
          cases hfu : fetchUser (tokenData.access_token.getD "") with
          | mk fst calls =>
            cases fst with
            | error ferr =>
              rw [hfu] at h
              simp only [] at h
              injection h with h
              rcases hfetch _ _ _ hfu with ⟨hp, hc⟩
              exact Or.inr ⟨h ▸ hp, h ▸ hc.imp id Or.inl⟩
            | ok u =>
              rw [hfu] at h
              simp only [] at h
              exact absurd h (by simp)

/-- The state-missing error, spelt out. -/
theorem stateMissingError_def :
    stateMissingError = { message := "State parameter missing - potential CSRF attack"
                          provider := none, code := "STATE_MISSING" } := rfl

/-- The state-mismatch error, spelt out. -/
theorem stateMismatchError_def :
    stateMismatchError = { message := "State mismatch - potential CSRF attack"
                           provider := none, code := "STATE_MISMATCH" } := rfl

/-- An error attributed to a provider differs from both state errors. -/
theorem ne_state_errors_of_provider_some {e : OAuthError} {n : String}
    (hp : e.provider = some n) :
    e ≠ stateMissingError ∧ e ≠ stateMismatchError := by
  constructor <;> intro heq <;> rw [heq] at hp <;>
    simp [stateMissingError_def, stateMismatchError_def] at hp

/-- An error with a request code differs from both state errors. -/
theorem ne_state_errors_of_code {e : OAuthError}
    (hc : e.code = "NETWORK_ERROR" ∨ e.code = "HTTP_ERROR") :
    e ≠ stateMissingError ∧ e ≠ stateMismatchError := by
  constructor <;> intro heq <;> subst heq <;> rcases hc with hc | hc <;>
    exact absurd hc (by decide)

/-- With a falsy options.state the callback flow never consults the callback
state parameter, and every error it surfaces either carries the variant name
or is a request error. -/
theorem handleCallbackCore_noState (inst : Instance) (params : CallbackParams)
    (opts : CallbackOptions) (tokenOutcome : FetchOutcome TokenResponse)
    (fetchUser : String → (Except OAuthError UserNT) × List String)
    (hs : truthy opts.state = false)
    (hname : inst.spec.name.isEmpty = false)
    (hfetch : ∀ tok err calls, fetchUser tok = (.error err, calls) →
      err.provider = none ∧ (err.code = "NETWORK_ERROR" ∨ err.code = "HTTP_ERROR")) :
    (∀ s2 : JStr,
      handleCallbackCore inst { params with state := s2 } opts tokenOutcome fetchUser =
        handleCallbackCore inst params opts tokenOutcome fetchUser) ∧
    (∀ e, (handleCallbackCore inst params opts tokenOutcome fetchUser).1 = .error e →
      e.provider = some inst.spec.name ∨
      (e.provider = none ∧ (e.code = "NETWORK_ERROR" ∨ e.code = "HTTP_ERROR"))) := by
  constructor
  · intro s2
    simp [handleCallbackCore, hs]
  · intro e h
    unfold handleCallbackCore at h
    split at h
    · injection h with h
      left
      rw [← h]
      simp [mkOAuthError, truthy, hname]
    · split at h
      · injection h with h
        left
        rw [← h]
        simp [mkOAuthError, truthy, hname]
      · rw [if_neg (by simp [hs])] at h
        simp only [] at h
        cases hex : exchangeCode inst tokenOutcome with
        | error exe =>
          rw [hex] at h
          simp only [] at h
          injection h with h
          rcases exchangeCode_error inst tokenOutcome exe hname hex with
            ⟨hp, _⟩ | ⟨hp, hc⟩
          · exact Or.inl (h ▸ hp)
          · exact Or.inr ⟨h ▸ hp, h ▸ hc⟩
        | ok tokenData =>
          rw [hex] at h
          simp only [] at h
          cases hfu : fetchUser (tokenData.access_token.getD "") with
          | mk fst calls =>
            cases fst with
            | error ferr =>
              rw [hfu] at h
              simp only [] at h
              injection h with h
              rcases hfetch _ _ _ hfu with ⟨hp, hc⟩
              exact Or.inr ⟨h ▸ hp, h ▸ hc⟩
            | ok u =>
              rw [hfu] at h
              simp only [] at h
              exact absurd h (by simp)

/-- C10 (implicit claim): with a falsy options.state (absent, undefined or
empty) none of the three providers performs a state check — the outcome does
not depend on the state parameter of the callback request — and neither of
the StateValidator errors can be raised. -/
theorem claim_C10 (params : CallbackParams) (opts : CallbackOptions)
    (hs : truthy opts.state = false) :
    (∀ (inst : Instance) (w : GoogleWorld) (s2 : JStr),
      inst.spec.name.isEmpty = false →
      googleHandleCallback inst { params with state := s2 } opts w =
        googleHandleCallback inst params opts w ∧
      ∀ e, (googleHandleCallback inst params opts w).1 = .error e →
        e ≠ stateMissingError ∧ e ≠ stateMismatchError) ∧
    (∀ (inst : Instance) (w : DiscordWorld) (s2 : JStr),
      inst.spec.name.isEmpty = false →
      discordHandleCallback inst { params with state := s2 } opts w =
        discordHandleCallback inst params opts w ∧
      ∀ e, (discordHandleCallback inst params opts w).1 = .error e →
        e ≠ stateMissingError ∧ e ≠ stateMismatchError) ∧
    (∀ (inst : Instance) (w : GitHubWorld) (s2 : JStr),
      inst.spec.name.isEmpty = false →
      githubHandleCallback inst { params with state := s2 } opts w =
        githubHandleCallback inst params opts w ∧
      ∀ e, (githubHandleCallback inst params opts w).1 = .error e →
        e ≠ stateMissingError ∧ e ≠ stateMismatchError) := by
  refine ⟨?_, ?_, ?_⟩
  · intro inst w s2 hname
    have hcore := handleCallbackCore_noState inst params opts w.token
      (fun tok => googleFetchUser tok w.profile) hs hname
      (fun tok err calls h => googleFetchUser_error tok w.profile err calls h)
    refine ⟨hcore.1 s2, fun e he => ?_⟩
    rcases hcore.2 e he with hp | ⟨_, hc⟩
    · exact ne_state_errors_of_provider_some hp
    · exact ne_state_errors_of_code hc
  · intro inst w s2 hname
    have hcore := handleCallbackCore_noState inst params opts w.token
      (fun tok => discordFetchUser tok w.profile) hs hname
      (fun tok err calls h => discordFetchUser_error tok w.profile err calls h)
    refine ⟨hcore.1 s2, fun e he => ?_⟩
    rcases hcore.2 e he with hp | ⟨_, hc⟩
    · exact ne_state_errors_of_provider_some hp
    · exact ne_state_errors_of_code hc
  · intro inst w s2 hname
    have hcore := handleCallbackCore_noState inst params opts w.token
      (fun tok => githubFetchUser tok w.profile w.emails) hs hname
      (fun tok err calls h => githubFetchUser_error tok w.profile w.emails err calls h)
    refine ⟨hcore.1 s2, fun e he => ?_⟩
    rcases hcore.2 e he with hp | ⟨_, hc⟩
    · exact ne_state_errors_of_provider_some hp
    · exact ne_state_errors_of_code hc

/-- Witness for C10: with no expected state supplied, a callback carrying a
(tampered) state parameter behaves exactly as one carrying none, on a
concrete GitHub run. -/
theorem claim_C10_witness :
    githubHandleCallback demoGithub
      { code := some "authcode", state := some "whatever" } {}
      { token := .netFail "down", profile := .netFail "down",
        emails := .netFail "down" } =
    githubHandleCallback demoGithub { code := some "authcode" } {}
      { token := .netFail "down", profile := .netFail "down",
        emails := .netFail "down" } :=
  ((claim_C10 { code := some "authcode" } {} (by decide)).2.2 demoGithub
    { token := .netFail "down", profile := .netFail "down",
      emails := .netFail "down" } (some "whatever") (by decide)).1

/-- The error value a failing Google token exchange produces. -/
def demoNetworkError : OAuthError :=
  { message := "Network request to https://oauth2.googleapis.com/token failed: connection refused"
    provider := none
    code := "NETWORK_ERROR" }

/-- C4 counterexample: on a constructed Google instance, a token-exchange
network failure surfaces a NETWORK_ERROR whose provider field is null, not
the name of the instance that produced it — refuting the claim that the
NETWORK_ERROR and HTTP_ERROR failures raised during token exchange carry the
provider name. -/
theorem claim_C4_cex :
    construct googleSpec demoConfig = .ok demoGoogle ∧
    (googleHandleCallback demoGoogle { code := some "authcode" } {}
      { token := .netFail "connection refused",
        profile := .netFail "connection refused" }).1 =
      .error demoNetworkError ∧
    demoNetworkError.provider = none ∧
    demoNetworkError.provider ≠ some demoGoogle.spec.name :=
  ⟨rfl, rfl, rfl, by decide⟩

/-- C4 (amended): every error an operation of a constructed instance
surfaces either carries the name of that instance (the orchestrator's own
errors: the provider denial, MISSING_CODE, TOKEN_ERROR) or carries a null
provider and is one of the HTTP-helper or StateValidator errors
(NETWORK_ERROR, HTTP_ERROR, STATE_MISSING, STATE_MISMATCH) — the latter are
not attributed to the instance. -/
theorem claim_C4 (inst : Instance) (params : CallbackParams)
    (opts : CallbackOptions) (hname : inst.spec.name.isEmpty = false) :
    (∀ (w : GoogleWorld) (e : OAuthError),
      (googleHandleCallback inst params opts w).1 = .error e →
      e.provider = some inst.spec.name ∨
      (e.provider = none ∧ (e.code = "NETWORK_ERROR" ∨ e.code = "HTTP_ERROR" ∨
        e.code = "STATE_MISSING" ∨ e.code = "STATE_MISMATCH"))) ∧
    (∀ (w : DiscordWorld) (e : OAuthError),
      (discordHandleCallback inst params opts w).1 = .error e →
      e.provider = some inst.spec.name ∨
      (e.provider = none ∧ (e.code = "NETWORK_ERROR" ∨ e.code = "HTTP_ERROR" ∨
        e.code = "STATE_MISSING" ∨ e.code = "STATE_MISMATCH"))) ∧
    (∀ (w : GitHubWorld) (e : OAuthError),
      (githubHandleCallback inst params opts w).1 = .error e →
      e.provider = some inst.spec.name ∨
      (e.provider = none ∧ (e.code = "NETWORK_ERROR" ∨ e.code = "HTTP_ERROR" ∨
        e.code = "STATE_MISSING" ∨ e.code = "STATE_MISMATCH"))) := by
  refine ⟨?_, ?_, ?_⟩
  · intro w e he
    exact handleCallbackCore_error_provider inst params opts w.token _ e hname
      (fun tok err calls h => googleFetchUser_error tok w.profile err calls h) he
  · intro w e he
    exact handleCallbackCore_error_provider inst params opts w.token _ e hname
      (fun tok err calls h => discordFetchUser_error tok w.profile err calls h) he
  · intro w e he
    exact handleCallbackCore_error_provider inst params opts w.token _ e hname
      (fun tok err calls h => githubFetchUser_error tok w.profile w.emails err calls h) he

/-- Witness for C4 at a concrete run: the network failure of a Google token
exchange is classified into the null-provider group. -/
theorem claim_C4_witness :
    demoNetworkError.provider = some demoGoogle.spec.name ∨
    (demoNetworkError.provider = none ∧
      (demoNetworkError.code = "NETWORK_ERROR" ∨ demoNetworkError.code = "HTTP_ERROR" ∨
        demoNetworkError.code = "STATE_MISSING" ∨
        demoNetworkError.code = "STATE_MISMATCH")) :=
  (claim_C4 demoGoogle { code := some "authcode" } {} (by decide)).1
    { token := .netFail "connection refused", profile := .netFail "connection refused" }
    demoNetworkError rfl

/-- The scope query parameter always holds the space-joined effective scope
list: the per-call override when one is given (even an explicitly empty
array, which is truthy in JS), else the configured scopes. -/
theorem redirectParams_scope (inst : Instance) (opts : RedirectOptions) :
    (redirectParams inst opts).lookup "scope" =
      some (String.intercalate " " (opts.scopes.getD inst.scopes)) := by
  unfold redirectParams
  cases hstate : truthy opts.state <;> simp [List.lookup]

/-- A successful construction resolves the stored scopes as
`config.scopes || defaultScopes`, falling back only when the config supplied
none. -/
theorem construct_ok_scopes (spec : ProviderSpec) (c : ProviderConfig)
    (inst : Instance) (h : construct spec c = .ok inst) :
    inst.scopes = c.scopes.getD spec.defaultScopes := by
  unfold construct at h
  split at h
  · exact absurd h (by simp)
  · split at h
    · exact absurd h (by simp)
    · split at h
      · exact absurd h (by simp)
      · injection h with h
        rw [← h]

/-- A valid provider configuration carrying an explicit scopes list. -/
def demoConfigCustom : ProviderConfig :=
  { clientId := some "id123"
    clientSecret := some "secret456"
    redirectUri := some "https://app.example.com/cb"
    scopes := some ["read:user"] }

/-- The GitHub instance the constructor builds from demoConfigCustom. -/
def demoGithubCustom : Instance :=
  { spec := githubSpec
    clientId := "id123"
    clientSecret := "secret456"
    redirectUri := "https://app.example.com/cb"
    scopes := ["read:user"] }

/-- demoGithubCustom is what construct yields on demoConfigCustom. -/
theorem construct_demoGithubCustom :
    construct githubSpec demoConfigCustom = .ok demoGithubCustom := rfl

/-- C5 counterexample: on a constructed GitHub instance, an explicitly empty
per-call scopes override yields an empty scope parameter — the JS fallback
`options.scopes || this.scopes` does not engage because an empty array is
truthy — refuting the claim that the scope list is never empty. -/
theorem claim_C5_cex :
    construct githubSpec demoConfig = .ok demoGithub ∧
    (redirectParams demoGithub { scopes := some [], state := none }).lookup "scope" =
      some "" :=
  ⟨construct_demoGithub, by decide⟩

/-- The accumulator of the intercalate loop can only grow. -/
theorem intercalate_go_length (s : String) (l : List String) (acc : String) :
    acc.length ≤ (String.intercalate.go acc s l).length := by
  induction l generalizing acc with
  | nil => simp [String.intercalate.go]
  | cons a as ih =>
    calc acc.length ≤ (acc ++ s ++ a).length := by
          simp only [String.length_append]
          omega
      _ ≤ (String.intercalate.go (acc ++ s ++ a) s as).length := ih _
      _ = (String.intercalate.go acc s (a :: as)).length := by
          simp [String.intercalate.go]

/-- The space-joined list is empty exactly for the empty list and the
singleton empty string. -/
theorem intercalate_space_eq_empty_iff (l : List String) :
    String.intercalate " " l = "" ↔ (l = [] ∨ l = [""]) := by
  cases l with
  | nil =>
    constructor
    · intro _
      exact Or.inl rfl
    · intro _
      rfl
  | cons x t =>
    cases t with
    | nil =>
      simp [String.intercalate, String.intercalate.go]
    | cons y t2 =>
      constructor
      · intro h
        have h1 : String.intercalate " " (x :: y :: t2) =
            String.intercalate.go (x ++ " " ++ y) " " t2 := by
          simp [String.intercalate, String.intercalate.go]
        have h2 := intercalate_go_length " " t2 (x ++ " " ++ y)
        have h3 : 1 ≤ (x ++ " " ++ y).length := by
          have hsp : (" " : String).length = 1 := rfl
          simp only [String.length_append, hsp]
          omega
        rw [← h1, h] at h2
        exact absurd (Nat.le_trans h3 h2) (by decide)
      · rintro (h | h) <;> simp at h

/-- C5 (amended): the scope parameter of the produced URL is the space-joined
per-call override when one is given (even an explicitly empty one, since an
empty array is truthy in JS and suppresses the fallback), else the
space-joined configured scopes, which resolve to the supplied config list or
else the built-in defaults of the variant; the parameter is empty exactly
when the effective scope list is the empty array or the singleton empty
string — in particular it is non-empty for every effective list containing a
non-empty scope string, and always when no scopes were explicitly supplied,
since the built-in defaults of the three variants are non-empty. -/
theorem claim_C5 (spec : ProviderSpec) (c : ProviderConfig) (inst : Instance)
    (opts : RedirectOptions) (hc : construct spec c = .ok inst) :
    ((redirectParams inst opts).lookup "scope" =
      some (String.intercalate " " (opts.scopes.getD inst.scopes))) ∧
    inst.scopes = c.scopes.getD spec.defaultScopes ∧
    (String.intercalate " " (opts.scopes.getD inst.scopes) = "" ↔
      (opts.scopes.getD inst.scopes = [] ∨ opts.scopes.getD inst.scopes = [""])) ∧
    ((spec = githubSpec ∨ spec = googleSpec ∨ spec = discordSpec) →
      opts.scopes = none → c.scopes = none →
      (redirectParams inst opts).lookup "scope" ≠ some "") := by
  refine ⟨redirectParams_scope inst opts, construct_ok_scopes spec c inst hc,
    intercalate_space_eq_empty_iff _, ?_⟩
  intro hspec hos hcs
  have hscopes : inst.scopes = spec.defaultScopes := by
    rw [construct_ok_scopes spec c inst hc, hcs]
    rfl
  rw [redirectParams_scope inst opts, hos, Option.getD_none, hscopes]
  rcases hspec with rfl | rfl | rfl <;> decide

/-- Witness for C5: on a GitHub instance constructed with an explicitly
configured single scope and no per-call override, the scope parameter is
that configured scope and is non-empty; with pure defaults it is likewise
non-empty. -/
theorem claim_C5_witness :
    (redirectParams demoGithubCustom {}).lookup "scope" =
      some (String.intercalate " "
        (({} : RedirectOptions).scopes.getD demoGithubCustom.scopes)) ∧
    demoGithubCustom.scopes =
      (Option.some ["read:user"]).getD githubSpec.defaultScopes ∧
    (String.intercalate " " (({} : RedirectOptions).scopes.getD
        demoGithubCustom.scopes) = "" ↔
      (({} : RedirectOptions).scopes.getD demoGithubCustom.scopes = [] ∨
        ({} : RedirectOptions).scopes.getD demoGithubCustom.scopes = [""])) ∧
    (redirectParams demoGithub {}).lookup "scope" ≠ some "" :=
  ⟨(claim_C5 githubSpec demoConfigCustom demoGithubCustom {}
      construct_demoGithubCustom).1,
   (claim_C5 githubSpec demoConfigCustom demoGithubCustom {}
      construct_demoGithubCustom).2.1,
   (claim_C5 githubSpec demoConfigCustom demoGithubCustom {}
      construct_demoGithubCustom).2.2.1,
   (claim_C5 githubSpec demoConfig demoGithub {} construct_demoGithub).2.2.2
     (Or.inl rfl) rfl rfl⟩

/-- The JS fallback keeps a truthy right operand truthy. -/
theorem truthy_jsOr_right (a b : JStr) (hb : truthy b = true) :
    truthy (jsOr a b) = true := by
  unfold jsOr
  split
  · assumption
  · exact hb

/-- C9 counterexample: a Google profile without a name normalizes to a user
whose name field is null — refuting the claim that name is a string with
email and avatar the only nullable fields. -/
theorem claim_C9_cex :
    (googleFetchUser "tok" (.response 200
      { id := .num 5, email := some "e@x.example" })).1 =
      .ok { provider := "google", id := "5", email := some "e@x.example",
            name := none, avatar := none } :=
  rfl

/-- C9 (amended): every successful profile fetch yields a user whose id is
the stringified profile id (a string even when the provider returns a
numeric id) and whose email and avatar are nullable; the name is non-null
for GitHub whenever the profile carries a login and for Discord whenever it
carries a username, but the Google name is `profile.name || null` and is
null whenever the profile has no name. -/
theorem claim_C9 (tok : String) (status : Nat) (hok : statusOk status = true) :
    (∀ p : GoogleProfile, (googleFetchUser tok (.response status p)).1 =
      .ok { provider := "google", id := p.id.toJsString, email := jsOr p.email none,
            name := jsOr p.name none, avatar := jsOr p.picture none }) ∧
    (∀ p : GoogleProfile, truthy p.name = false →
      ∃ u : UserNT, (googleFetchUser tok (.response status p)).1 = .ok u ∧
        u.name = none) ∧
    (∀ p : DiscordProfile,
      ∃ u : UserNT, (discordFetchUser tok (.response status p)).1 = .ok u ∧
        u.id = p.id.toJsString ∧ u.name = jsOr p.global_name p.username ∧
        (truthy p.username = true → truthy u.name = true)) ∧
    (∀ (p : GHProfile) (eo : FetchOutcome (List GHEmail)),
      ∃ u : UserNT, (githubFetchUser tok (.response status p) eo).1 = .ok u ∧
        u.id = p.id.toJsString ∧ u.name = jsOr p.name p.login ∧
        (truthy p.login = true → truthy u.name = true)) := by
  refine ⟨?_, ?_, ?_, ?_⟩
  · intro p
    simp [googleFetchUser, request, hok]
  · intro p hn
    refine ⟨{ provider := "google", id := p.id.toJsString, email := jsOr p.email none,
              name := jsOr p.name none, avatar := jsOr p.picture none }, ?_, ?_⟩
    · simp [googleFetchUser, request, hok]
    · simp [jsOr, hn]
  · intro p
    refine ⟨{ provider := "discord", id := p.id.toJsString,
              email := jsOr p.email none,
              name := jsOr p.global_name p.username,
              avatar := discordAvatar p.id p.avatar }, ?_, rfl, rfl,
        fun h => truthy_jsOr_right _ _ h⟩
    simp [discordFetchUser, request, hok]
  · intro p eo
    have hpreq : request githubUserUrl (noErrView GHProfile)
        (.response status p) = .ok p := by
      simp [request, hok]
    cases hpe : truthy p.email with
    | true =>
      refine ⟨{ provider := "github", id := p.id.toJsString, email := p.email,
                name := jsOr p.name p.login,
                avatar := jsOr p.avatar_url none }, ?_, rfl, rfl,
          fun h => truthy_jsOr_right _ _ h⟩
      simp [githubFetchUser, hpreq, hpe]
    | false =>
      cases hereq : request githubEmailsUrl (noErrView (List GHEmail)) eo with
      | error e =>
        refine ⟨{ provider := "github", id := p.id.toJsString, email := none,
                  name := jsOr p.name p.login,
                  avatar := jsOr p.avatar_url none }, ?_, rfl, rfl,
            fun h => truthy_jsOr_right _ _ h⟩
        simp [githubFetchUser, hpreq, hpe, hereq]
      | ok emails =>
        refine ⟨{ provider := "github", id := p.id.toJsString,
                  email := githubSelectEmail emails,
                  name := jsOr p.name p.login,
                  avatar := jsOr p.avatar_url none }, ?_, rfl, rfl,
            fun h => truthy_jsOr_right _ _ h⟩
        simp [githubFetchUser, hpreq, hpe, hereq]

/-- Witness for C9 at a concrete input: a Discord profile with a numeric id
and no global name yields a user with a stringified id and the username as
name. -/
theorem claim_C9_witness :
    ∃ u : UserNT, (discordFetchUser "tok" (.response 200
      { id := .num 42, username := some "gamer", email := none })).1 = .ok u ∧
      u.id = (JsId.num 42).toJsString ∧
      u.name = jsOr none (some "gamer") ∧
      (truthy (some "gamer") = true → truthy u.name = true) :=
  (claim_C9 "tok" 200 (by decide)).2.2.1
    { id := .num 42, username := some "gamer", email := none }

end UniOAuth
